import Mathlib

/-!
# cmus `options.c`: command mode options (`:set var=val`)

A shallow embedding of `src/cmus/options.c`.  Global variables of the program
(`bg_colors`, `fg_colors`, the eight format variables, `status_display_program`,
`sort_string`, the registry filled by `option_add`) are fields of `State`.
Calls into other translation units that only notify a collaborator
(`ui_curses_display_error_msg`, `ui_curses_update_color`, ...) are recorded, in
call order, in `State.events`.  Everything `options.c` uses but does not define
(`NR_COLORS`, `CHUNK_SIZE`, `color_names`, `str_to_int`, `format_valid`, ...)
is a field of `Env`.

`BUG_ON` aborts the process; an accessor that hits it returns `none`.
`d_print` is debug tracing and is not part of the model.  A `char *` text is a
`String`; its length as a C string is the size in bytes of its encoding
(`strlen`).
-/

namespace Cmus

/-! ## C values -/

/-- Width of the C type `int`. -/
def INT_BITS : Nat := 32

/-- Conversion of a mathematical integer to a signed machine integer of
`bits` bits (two's complement wrap-around). -/
def wrap (bits : Nat) (x : Int) : Int :=
  (x + 2 ^ (bits - 1)) % 2 ^ bits - 2 ^ (bits - 1)

/-- C integer division `/`: the quotient truncated toward zero. -/
def cdiv (a b : Int) : Int := Int.tdiv a b

/-- Text produced by `snprintf(buf, sizeof(buf), "%d", x)` for an `int` x
(at most 11 characters, so the 32 byte buffers never truncate it). -/
def fmt_d (x : Int) : String := toString x

/-- Length in bytes of a text as a C string (`strlen`): the size of its UTF-8
encoding. -/
def strlen (s : String) : Nat := (s.data.map Char.utf8Size).sum

/-- The leading characters of a text whose encodings fit, one after the
other, in `n` bytes. -/
def take_bytes : Nat → List Char → List Char
  | _, [] => []
  | n, c :: cs => if c.utf8Size ≤ n then c :: take_bytes (n - c.utf8Size) cs else []

/-- Text produced by `snprintf(buf, size, ...)`: the formatted text, cut to
its first `size - 1` bytes.  A text of at most `size - 1` bytes is kept whole.
When the cut falls inside a multi-byte character the bytes kept of that
character are no text and are left out; for ASCII text the result is exactly
the first `size - 1` bytes. -/
def snprintf (size : Nat) (text : String) : String := ⟨take_bytes (size - 1) text.data⟩

/-- The eight global format variables that `fmt_vars` points to. -/
inductive FmtVar
  | current_alt_format
  | list_win_alt_format
  | window_title_alt_format
  | track_win_alt_format
  | current_format
  | list_win_format
  | window_title_format
  | track_win_format
  deriving DecidableEq, Repr

/-- A value of `void *` as stored in `command_mode_option.data`: an `int`
cast to a pointer (`(void *)i`, read back with `(int)opt->data`; `NULL` is
`(void *)0`) or the address of one of the format variables. -/
inductive VoidPtr
  | int (i : Int)
  | var (p : FmtVar)
  deriving DecidableEq, Repr

/-- The null pointer. -/
def NULL : VoidPtr := VoidPtr.int 0

/-- The get accessors defined in `options.c`. -/
inductive GetFn
  | get_color
  | get_format
  | get_output_plugin
  | get_buffer_seconds
  | get_status_display_program
  | get_sort
  | get_op_option
  deriving DecidableEq, Repr

/-- The set accessors defined in `options.c`. -/
inductive SetFn
  | set_color
  | set_format
  | set_output_plugin
  | set_buffer_seconds
  | set_status_display_program
  | set_sort
  | set_op_option
  deriving DecidableEq, Repr

/-- The fields of `struct command_mode_option` that `options.c` uses. -/
structure command_mode_option where
  name : String
  get : GetFn
  set : SetFn
  data : VoidPtr
  deriving DecidableEq, Repr

/-- Calls into collaborators, recorded in call order. -/
inductive Event
  | ui_curses_display_error_msg (msg : String)
  | ui_curses_update_color (i : Int)
  | ui_curses_update_view
  | ui_curses_update_titleline
  | ui_curses_set_sort (value : String) (flag : Int)
  | player_set_op (value : String)
  | player_set_buffer_size (nr_chunks : Int)
  | player_set_op_option (name : String) (value : String)
  | sconf_set_str_option (name : String) (value : String)
  deriving DecidableEq, Repr

/-- What `options.c` takes from the rest of the program. -/
structure Env where
  /-- Number of color slots per table (`NR_COLORS`). -/
  NR_COLORS : Nat
  /-- Size of one buffer chunk in bytes (`CHUNK_SIZE`). -/
  CHUNK_SIZE : Int
  /-- Width of the C type `long int`. -/
  LONG_BITS : Nat
  /-- The table `color_names[NR_COLORS]`. -/
  color_names : List String
  /-- The helper `str_to_int(str, &val)`: its return code and the value left
  in `val`. -/
  str_to_int : String → Int × Int
  /-- The validator `format_valid(format)`. -/
  format_valid : String → Bool
  /-- The lookup `sconf_get_str_option(&sconf_head, name, &var)`: the stored
  value, or `none` when it returns non-zero. -/
  sconf_get_str_option : String → Option String
  /-- The names for which `player_for_each_op_option` calls its callback, in
  call order. -/
  op_option_names : List String
  /-- The chunk count the player holds after `player_set_buffer_size(n)`,
  given the count it held before. -/
  stored_buffer_size : Int → Int → Int
  /-- The output plugin name the player holds after `player_set_op(value)`,
  given the one it held before. -/
  stored_op : Option String → String → Option String
  /-- The value of `sort_string` after `ui_curses_set_sort(value, 1)`, given
  its value before. -/
  stored_sort : String → String → String

/-- The global state `options.c` reads and writes. -/
structure State where
  bg_colors : List Int
  fg_colors : List Int
  fmt : FmtVar → String
  status_display_program : Option String
  sort_string : String
  /-- What `player_get_op()` returns (`none` is `NULL`). -/
  player_op : Option String
  /-- What `player_get_buffer_size()` returns. -/
  player_buffer_size : Int
  /-- The registry, in registration order. -/
  options : List command_mode_option
  events : List Event

/-- Both color tables have `NR_COLORS` entries, as declared. -/
def State.tables_ok (env : Env) (st : State) : Prop :=
  st.bg_colors.length = env.NR_COLORS ∧ st.fg_colors.length = env.NR_COLORS

/-- Record a call into a collaborator. -/
def State.emit (st : State) (e : Event) : State :=
  { st with events := st.events ++ [e] }

/-! ## Color accessors -/

/-- `get_color`: `opt->data` is a color index, `0..NR_COLORS-1` is bg,
`NR_COLORS..2*NR_COLORS-1` is fg. -/
def get_color (env : Env) (opt : command_mode_option) (st : State) : Option String :=
  match opt.data with
  | VoidPtr.var _ => none
  | VoidPtr.int i =>
    if i < 0 then none
    else if i ≥ 2 * (env.NR_COLORS : Int) then none
    else
      let color : Option Int :=
        if i < (env.NR_COLORS : Int) then st.bg_colors[i.toNat]?
        else st.fg_colors[(i - (env.NR_COLORS : Int)).toNat]?
      color.map fmt_d

/-- `set_color`. -/
def set_color (env : Env) (opt : command_mode_option) (value : String) (st : State) :
    Option State :=
  match opt.data with
  | VoidPtr.var _ => none
  | VoidPtr.int i =>
    let color_max : Int := 255
    if i < 0 then none
    else if i ≥ 2 * (env.NR_COLORS : Int) then none
    else
      let r := env.str_to_int value
      let color : Int := r.2
      if r.1 ≠ 0 ∨ color < -1 ∨ color > color_max then
        some (st.emit (Event.ui_curses_display_error_msg
          ("color value must be -1.." ++ fmt_d color_max)))
      else if i < (env.NR_COLORS : Int) then
        if i.toNat < st.bg_colors.length then
          some ({ st with bg_colors := st.bg_colors.set i.toNat (wrap INT_BITS color) }.emit
            (Event.ui_curses_update_color i))
        else none
      else
        let i : Int := i - (env.NR_COLORS : Int)
        if i.toNat < st.fg_colors.length then
          some ({ st with fg_colors := st.fg_colors.set i.toNat (wrap INT_BITS color) }.emit
            (Event.ui_curses_update_color i))
        else none

/-! ## Format accessors -/

/-- `get_format`: `opt->data` points to the format variable. -/
def get_format (opt : command_mode_option) (st : State) : Option String :=
  match opt.data with
  | VoidPtr.int _ => none
  | VoidPtr.var p => some (st.fmt p)

/-- `set_format`. -/
def set_format (env : Env) (opt : command_mode_option) (value : String) (st : State) :
    Option State :=
  match opt.data with
  | VoidPtr.int _ => none
  | VoidPtr.var p =>
    if !env.format_valid value then
      some (st.emit (Event.ui_curses_display_error_msg "invalid format string"))
    else
      some (({ st with fmt := Function.update st.fmt p value }.emit
        Event.ui_curses_update_view).emit Event.ui_curses_update_titleline)

/-! ## Output plugin accessors -/

/-- `get_output_plugin`. -/
def get_output_plugin (st : State) : Option String :=
  match st.player_op with
  | none => some ""
  | some v => some v

/-- `set_output_plugin`: `player_set_op(value)`. -/
def set_output_plugin (env : Env) (value : String) (st : State) : Option State :=
  some ({ st with player_op := env.stored_op st.player_op value }.emit
    (Event.player_set_op value))

/-! ## Buffer size accessors -/

/-- `get_buffer_seconds`: the product and the quotient are computed in `int`
and printed with `%d`. -/
def get_buffer_seconds (env : Env) (st : State) : Option String :=
  some (fmt_d (cdiv (wrap INT_BITS (st.player_buffer_size * env.CHUNK_SIZE))
    (wrap INT_BITS (cdiv (wrap INT_BITS (44100 * 16)) 8 * 2))))

/-- The argument of `player_set_buffer_size` in `set_buffer_seconds`:
`seconds * 44100 * 16 / 8 * 2 / CHUNK_SIZE`, evaluated left to right in
`long int`. -/
def buffer_chunks (env : Env) (seconds : Int) : Int :=
  let w := wrap env.LONG_BITS
  cdiv (w (cdiv (w (w (seconds * 44100) * 16)) 8 * 2)) env.CHUNK_SIZE

/-- `set_buffer_seconds`. -/
def set_buffer_seconds (env : Env) (value : String) (st : State) : Option State :=
  let r := env.str_to_int value
  let seconds : Int := r.2
  if r.1 = -1 then
    some (st.emit (Event.ui_curses_display_error_msg "invalid format string"))
  else
    let n := buffer_chunks env seconds
    some ({ st with player_buffer_size := env.stored_buffer_size st.player_buffer_size n }.emit
      (Event.player_set_buffer_size n))

/-! ## Status display program accessors -/

/-- `get_status_display_program`. -/
def get_status_display_program (st : State) : Option String :=
  match st.status_display_program with
  | none => some ""
  | some v => some v

/-- `set_status_display_program`. -/
def set_status_display_program (value : String) (st : State) : Option State :=
  if value = "" then
    some { st with status_display_program := none }
  else
    some { st with status_display_program := some value }

/-! ## Sort accessors -/

/-- `get_sort`. -/
def get_sort (st : State) : Option String := some st.sort_string

/-- `set_sort`: `ui_curses_set_sort(value, 1)` then `ui_curses_update_view()`. -/
def set_sort (env : Env) (value : String) (st : State) : Option State :=
  some (({ st with sort_string := env.stored_sort st.sort_string value }.emit
    (Event.ui_curses_set_sort value 1)).emit Event.ui_curses_update_view)

/-! ## Output plugin option accessors -/

/-- `get_op_option`. -/
def get_op_option (_opt : command_mode_option) (_st : State) : Option String := some ""

/-- `set_op_option`. -/
def set_op_option (opt : command_mode_option) (value : String) (st : State) : Option State :=
  if opt.data ≠ NULL then none
  else some (st.emit (Event.player_set_op_option opt.name value))

/-! ## The registry -/

/-- Modelled from the spec: `option_add` is declared in `command_mode.h` and
defined outside `options.c`.  "`register(name, get, set, context)` adds a
descriptor"; "iteration order for enumeration purposes is insertion order". -/
def option_add (name : String) (get : GetFn) (set : SetFn) (data : VoidPtr) (st : State) :
    State :=
  { st with options := st.options ++ [{ name := name, get := get, set := set, data := data }] }

/-- `player_option_callback`. -/
def player_option_callback (data : VoidPtr) (name : String) (st : State) : State :=
  option_add name GetFn.get_op_option SetFn.set_op_option data st

/-- The call `opt->get(opt, &value)`. -/
def option_get (env : Env) (opt : command_mode_option) (st : State) : Option String :=
  match opt.get with
  | GetFn.get_color => get_color env opt st
  | GetFn.get_format => get_format opt st
  | GetFn.get_output_plugin => get_output_plugin st
  | GetFn.get_buffer_seconds => get_buffer_seconds env st
  | GetFn.get_status_display_program => get_status_display_program st
  | GetFn.get_sort => get_sort st
  | GetFn.get_op_option => get_op_option opt st

/-- The call `opt->set(opt, value)`. -/
def option_set (env : Env) (opt : command_mode_option) (value : String) (st : State) :
    Option State :=
  match opt.set with
  | SetFn.set_color => set_color env opt value st
  | SetFn.set_format => set_format env opt value st
  | SetFn.set_output_plugin => set_output_plugin env value st
  | SetFn.set_buffer_seconds => set_buffer_seconds env value st
  | SetFn.set_status_display_program => set_status_display_program value st
  | SetFn.set_sort => set_sort env value st
  | SetFn.set_op_option => set_op_option opt value st

/-! ## Startup and shutdown -/

/-- `NR_FMTS`. -/
def NR_FMTS : Nat := 8

/-- `fmt_names`. -/
def fmt_names : List String :=
  ["altformat_current",
   "altformat_playlist",
   "altformat_title",
   "altformat_trackwin",
   "format_current",
   "format_playlist",
   "format_title",
   "format_trackwin"]

/-- `fmt_defaults`. -/
def fmt_defaults : List String :=
  [" %F%= %d ",
   " %f%= %d ",
   "%f",
   " %f%= %d ",
   " %a - %l - %02n. %t%= %y %d ",
   " %a - %l - %02n. %t%= %y %d ",
   "%a - %l - %t (%y)",
   " %02n. %t%= %y %d "]

/-- `fmt_vars`. -/
def fmt_vars : List FmtVar :=
  [FmtVar.current_alt_format,
   FmtVar.list_win_alt_format,
   FmtVar.window_title_alt_format,
   FmtVar.track_win_alt_format,
   FmtVar.current_format,
   FmtVar.list_win_format,
   FmtVar.window_title_format,
   FmtVar.track_win_format]

/-- Body of the first loop of `options_init`, for one `i`. -/
def init_fmt (env : Env) (st : State) (i : Nat) : State :=
  let name := fmt_names.getD i ""
  let p := fmt_vars.getD i FmtVar.current_alt_format
  let var : String :=
    match env.sconf_get_str_option name with
    | some v => v
    | none => fmt_defaults.getD i ""
  option_add name GetFn.get_format SetFn.set_format (VoidPtr.var p)
    { st with fmt := Function.update st.fmt p var }

/-- Body of the second loop of `options_init`, for one `i`. -/
def init_color (env : Env) (st : State) (i : Nat) : State :=
  let c := env.color_names.getD i ""
  let st := option_add (snprintf 64 ("color_" ++ c ++ "_bg"))
    GetFn.get_color SetFn.set_color (VoidPtr.int (i : Int)) st
  option_add (snprintf 64 ("color_" ++ c ++ "_fg"))
    GetFn.get_color SetFn.set_color (VoidPtr.int ((i : Int) + (env.NR_COLORS : Int))) st

/-- `player_for_each_op_option(cb, data)`: one call of `cb(data, name)` per
enumerated name. -/
def player_for_each_op_option (env : Env) (cb : VoidPtr → String → State → State)
    (data : VoidPtr) (st : State) : State :=
  env.op_option_names.foldl (fun s name => cb data name s) st

/-- `options_init`. -/
def options_init (env : Env) (st : State) : State :=
  let st := (List.range NR_FMTS).foldl (init_fmt env) st
  let st := (List.range env.NR_COLORS).foldl (init_color env) st
  let st := option_add "output_plugin" GetFn.get_output_plugin SetFn.set_output_plugin NULL st
  let st := option_add "buffer_seconds" GetFn.get_buffer_seconds SetFn.set_buffer_seconds NULL st
  let st := option_add "status_display_program" GetFn.get_status_display_program
    SetFn.set_status_display_program NULL st
  let st := option_add "sort" GetFn.get_sort SetFn.set_sort NULL st
  player_for_each_op_option env player_option_callback NULL st

/-- `options_exit`. -/
def options_exit (st : State) : State :=
  (List.range NR_FMTS).foldl
    (fun s i => s.emit (Event.sconf_set_str_option (fmt_names.getD i "")
      (s.fmt (fmt_vars.getD i FmtVar.current_alt_format)))) st

/-- Run `set` and then `get` of the same descriptor. -/
def set_then_get (env : Env) (opt : command_mode_option) (value : String) (st : State) :
    Option String :=
  (option_set env opt value st).bind (option_get env opt)

/-! ## A concrete environment

`options.c` leaves its collaborators open; the definitions below fix one
choice of them, on which the statements of this file are evaluated. -/

/-- Value of a string of decimal digits, `none` if another character occurs. -/
def digits_value : List Char → Nat → Option Nat
  | [], acc => some acc
  | c :: cs, acc =>
    if c.isDigit then digits_value cs (acc * 10 + (c.toNat - 48)) else none

/-- Modelled from the spec: `str_to_int` is defined outside `options.c`.
"parse text as integer; fail ... if unparsable": a non-empty run of decimal
digits, optionally preceded by `-`, is parsed (return code 0); every other
text is a failure (return code -1, as tested by `set_buffer_seconds`). -/
def str_to_int_model (s : String) : Int × Int :=
  match s.data with
  | [] => (-1, 0)
  | '-' :: c :: cs =>
    match digits_value (c :: cs) 0 with
    | some n => (0, -(n : Int))
    | none => (-1, 0)
  | cs =>
    match digits_value cs 0 with
    | some n => (0, (n : Int))
    | none => (-1, 0)

/-- A sample environment: two color slots, 60 KiB chunks, 64 bit `long`,
collaborators that store what they are handed. -/
def sample_env : Env where
  NR_COLORS := 2
  CHUNK_SIZE := 60 * 1024
  LONG_BITS := 64
  color_names := ["row", "title"]
  str_to_int := str_to_int_model
  format_valid := fun s => s != "%"
  sconf_get_str_option := fun name => if name = "format_title" then some "%t" else none
  op_option_names := ["dsp.alsa.device"]
  stored_buffer_size := fun _ n => n
  stored_op := fun _ v => some v
  stored_sort := fun _ v => v

/-- A sample state: two color slots per table, empty registry, no events. -/
def sample_state : State where
  bg_colors := [-1, 4]
  fg_colors := [7, -1]
  fmt := fun _ => "%f"
  status_display_program := none
  sort_string := "artist album"
  player_op := none
  player_buffer_size := 10
  options := []
  events := []

/-- A color name of 60 bytes. -/
def long_name : String := "aaaaaaaaaabbbbbbbbbbccccccccccddddddddddeeeeeeeeeeffffffffff"

/-- The sample environment with a color table of one name, 60 bytes long. -/
def long_name_env : Env := { sample_env with NR_COLORS := 1, color_names := [long_name] }

/-- The descriptor `options_init` registers for the background of color 1. -/
def sample_color_opt : command_mode_option :=
  { name := "color_title_bg", get := GetFn.get_color, set := SetFn.set_color,
    data := VoidPtr.int 1 }

/-- The descriptor `options_init` registers for `format_title`. -/
def sample_format_opt : command_mode_option :=
  { name := "format_title", get := GetFn.get_format, set := SetFn.set_format,
    data := VoidPtr.var FmtVar.window_title_format }

/-! ## The registry contents, written out

The descriptors the loops of `options_init` pass to `option_add`, and the list
of names the specification gives for the registry after startup. -/

/-- The descriptor registered by the first loop of `options_init` for `i`. -/
def fmt_option (i : Nat) : command_mode_option :=
  { name := fmt_names.getD i "", get := GetFn.get_format, set := SetFn.set_format,
    data := VoidPtr.var (fmt_vars.getD i FmtVar.current_alt_format) }

/-- The two descriptors registered by the second loop of `options_init` for
`i`, where `c` is `color_names[i]`. -/
def color_option_pair (env : Env) (i : Nat) (c : String) : List command_mode_option :=
  [{ name := snprintf 64 ("color_" ++ c ++ "_bg"), get := GetFn.get_color,
     set := SetFn.set_color, data := VoidPtr.int (i : Int) },
   { name := snprintf 64 ("color_" ++ c ++ "_fg"), get := GetFn.get_color,
     set := SetFn.set_color, data := VoidPtr.int ((i : Int) + (env.NR_COLORS : Int)) }]

/-- The four descriptors registered after the loops. -/
def fixed_options : List command_mode_option :=
  [{ name := "output_plugin", get := GetFn.get_output_plugin,
     set := SetFn.set_output_plugin, data := NULL },
   { name := "buffer_seconds", get := GetFn.get_buffer_seconds,
     set := SetFn.set_buffer_seconds, data := NULL },
   { name := "status_display_program", get := GetFn.get_status_display_program,
     set := SetFn.set_status_display_program, data := NULL },
   { name := "sort", get := GetFn.get_sort, set := SetFn.set_sort, data := NULL }]

/-- The descriptor `player_option_callback(data, name)` registers. -/
def op_option (data : VoidPtr) (name : String) : command_mode_option :=
  { name := name, get := GetFn.get_op_option, set := SetFn.set_op_option, data := data }

/-- The registry after startup as the specification lists it: the 8 format
names, two names per color name, the fixed scalar names, then the
plugin-supplied names. -/
def spec_registered_names (env : Env) : List String :=
  ["altformat_current", "altformat_playlist", "altformat_title", "altformat_trackwin",
   "format_current", "format_playlist", "format_title", "format_trackwin"] ++
  env.color_names.flatMap (fun c => ["color_" ++ c ++ "_bg", "color_" ++ c ++ "_fg"]) ++
  ["output_plugin", "buffer_seconds", "status_display_program", "sort"] ++
  env.op_option_names

/-- The names `options_init` registers before it calls the plugin-option
enumerator: the 8 format names, two names per color name, the fixed scalar
names. -/
def builtin_names (env : Env) : List String :=
  ["altformat_current", "altformat_playlist", "altformat_title", "altformat_trackwin",
   "format_current", "format_playlist", "format_title", "format_trackwin"] ++
  env.color_names.flatMap (fun c => ["color_" ++ c ++ "_bg", "color_" ++ c ++ "_fg"]) ++
  ["output_plugin", "buffer_seconds", "status_display_program", "sort"]

/-- Every entry of both color tables is a color code in `[-1, 255]`. -/
def State.colors_in_range (st : State) : Prop :=
  (∀ x ∈ st.bg_colors, -1 ≤ x ∧ x ≤ 255) ∧ (∀ x ∈ st.fg_colors, -1 ≤ x ∧ x ≤ 255)

/-- A sequence of `set_color` calls, each with its descriptor and text, run
from left to right. -/
def set_color_seq (env : Env) : List (command_mode_option × String) → State → Option State
  | [], st => some st
  | call :: rest, st => (set_color env call.1 call.2 st).bind (set_color_seq env rest)

/-! # Theorems -/

/-! ## Machine arithmetic -/

theorem wrap_int_of_color (c : Int) (h1 : -1 ≤ c) (h2 : c ≤ 255) : wrap INT_BITS c = c := by
  unfold wrap INT_BITS
  norm_num
  omega

theorem wrap_eq_self (b : Nat) (x : Int) (hb : 1 ≤ b)
    (h1 : -(2 ^ (b - 1)) ≤ x) (h2 : x < 2 ^ (b - 1)) : wrap b x = x := by
  obtain ⟨k, rfl⟩ : ∃ k, b = k + 1 := ⟨b - 1, by omega⟩
  unfold wrap
  have hp : (2 : Int) ^ (k + 1) = 2 * 2 ^ k := by ring
  simp only [Nat.add_sub_cancel] at h1 h2 ⊢
  rw [hp, Int.emod_eq_of_lt (by omega) (by omega)]
  omega

theorem seconds_divisor : wrap INT_BITS (cdiv (wrap INT_BITS (44100 * 16)) 8 * 2) = 176400 := by
  decide

theorem tdiv_mul_nonneg (a C : Int) (ha : 0 ≤ a) (hC : 0 < C) :
    0 ≤ a.tdiv C * C ∧ a.tdiv C * C ≤ a := by
  rw [Int.tdiv_eq_ediv ha hC.le]
  exact ⟨mul_nonneg (Int.ediv_nonneg ha hC.le) hC.le, Int.ediv_mul_le a hC.ne.symm⟩

theorem tdiv_mul_nonpos (a C : Int) (ha : a ≤ 0) (hC : 0 < C) :
    a ≤ a.tdiv C * C ∧ a.tdiv C * C ≤ 0 := by
  have h := tdiv_mul_nonneg (-a) C (by omega) hC
  rw [Int.neg_tdiv, neg_mul] at h
  constructor <;> linarith [h.1, h.2]

/-- Without overflow in `long int`, the chunk count handed to the player is
the quotient of `seconds * 176400` by `CHUNK_SIZE`, truncated toward zero. -/
theorem buffer_chunks_eq (env : Env) (N : Int) (hb : 1 ≤ env.LONG_BITS)
    (h1 : -(2 ^ (env.LONG_BITS - 1)) ≤ N * 705600)
    (h2 : N * 705600 < 2 ^ (env.LONG_BITS - 1)) :
    buffer_chunks env N = (N * 176400).tdiv env.CHUNK_SIZE := by
  unfold buffer_chunks cdiv
  have hP : (0 : Int) < 2 ^ (env.LONG_BITS - 1) := by positivity
  simp only []
  rw [wrap_eq_self _ (N * 44100) hb (by omega) (by omega)]
  rw [wrap_eq_self _ (N * 44100 * 16) hb (by omega) (by omega)]
  have h8 : (N * 44100 * 16).tdiv 8 = N * 88200 := by
    have : N * 44100 * 16 = N * 88200 * 8 := by ring
    rw [this, Int.mul_tdiv_cancel _ (by decide)]
  rw [h8, wrap_eq_self _ (N * 88200 * 2) hb (by omega) (by omega)]
  congr 1
  ring

/-! ## Color accessors -/

theorem get_color_congr (env : Env) (o : command_mode_option) (s t : State)
    (hb : t.bg_colors = s.bg_colors) (hf : t.fg_colors = s.fg_colors) :
    get_color env o t = get_color env o s := by
  unfold get_color
  rw [hb, hf]

theorem set_color_reject (env : Env) (st : State) (opt : command_mode_option)
    (i : Int) (value : String) (hdata : opt.data = VoidPtr.int i)
    (hlo : 0 ≤ i) (hhi : i < 2 * (env.NR_COLORS : Int))
    (hbad : (env.str_to_int value).1 ≠ 0 ∨ (env.str_to_int value).2 < -1 ∨
      255 < (env.str_to_int value).2) :
    set_color env opt value st = some (st.emit
      (Event.ui_curses_display_error_msg ("color value must be -1.." ++ fmt_d 255))) := by
  unfold set_color
  rw [hdata]
  simp only [gt_iff_lt, ge_iff_le]
  rw [if_neg (by omega), if_neg (by omega), if_pos hbad]

theorem set_color_accept (env : Env) (st : State) (opt : command_mode_option)
    (i : Int) (value : String) (hdata : opt.data = VoidPtr.int i) (hok : st.tables_ok env)
    (hlo : 0 ≤ i) (hhi : i < 2 * (env.NR_COLORS : Int))
    (hrc : (env.str_to_int value).1 = 0)
    (hc1 : -1 ≤ (env.str_to_int value).2) (hc2 : (env.str_to_int value).2 ≤ 255) :
    ∃ st', set_color env opt value st = some st' ∧
      get_color env opt st' = some (fmt_d (env.str_to_int value).2) := by
  obtain ⟨hb, hf⟩ := hok
  unfold set_color get_color
  rw [hdata]
  simp only [gt_iff_lt, ge_iff_le]
  rw [if_neg (by omega), if_neg (by omega), if_neg (by omega), wrap_int_of_color _ hc1 hc2]
  by_cases hi : i < (env.NR_COLORS : Int)
  · have hlt : i.toNat < st.bg_colors.length := by omega
    rw [if_pos hi, if_pos hlt]
    refine ⟨_, rfl, ?_⟩
    simp only [State.emit, if_pos hi]
    rw [List.getElem?_set_self hlt, if_neg (by omega), if_neg (by omega)]
    rfl
  · have hlt : (i - (env.NR_COLORS : Int)).toNat < st.fg_colors.length := by omega
    rw [if_neg hi, if_pos hlt]
    refine ⟨_, rfl, ?_⟩
    simp only [State.emit, if_neg hi]
    rw [List.getElem?_set_self hlt, if_neg (by omega), if_neg (by omega)]
    rfl

/-- The sample parser reads the decimal text of every color value back. -/
theorem str_to_int_model_fmt_d (c : Int) (h1 : -1 ≤ c) (h2 : c ≤ 255) :
    str_to_int_model (fmt_d c) = (0, c) := by
  interval_cases c <;> rfl

/-- The state `set_color` returns for an accepted value: one slot of one table
is written and `ui_curses_update_color` is called with the slot index. -/
theorem set_color_accept_eq (env : Env) (st : State) (opt : command_mode_option)
    (i : Int) (value : String) (hdata : opt.data = VoidPtr.int i) (hok : st.tables_ok env)
    (hlo : 0 ≤ i) (hhi : i < 2 * (env.NR_COLORS : Int))
    (hrc : (env.str_to_int value).1 = 0)
    (hc1 : -1 ≤ (env.str_to_int value).2) (hc2 : (env.str_to_int value).2 ≤ 255) :
    set_color env opt value st = some
      (if i < (env.NR_COLORS : Int) then
        { st with bg_colors := st.bg_colors.set i.toNat (env.str_to_int value).2 }.emit
          (Event.ui_curses_update_color i)
      else
        { st with
          fg_colors :=
            st.fg_colors.set (i - (env.NR_COLORS : Int)).toNat (env.str_to_int value).2 }.emit
          (Event.ui_curses_update_color (i - (env.NR_COLORS : Int)))) := by
  obtain ⟨hb, hf⟩ := hok
  unfold set_color
  rw [hdata]
  simp only [gt_iff_lt, ge_iff_le]
  rw [if_neg (by omega), if_neg (by omega), if_neg (by omega), wrap_int_of_color _ hc1 hc2]
  by_cases hi : i < (env.NR_COLORS : Int)
  · have hlt : i.toNat < st.bg_colors.length := by omega
    rw [if_pos hi, if_pos hlt, if_pos hi]
  · have hlt : (i - (env.NR_COLORS : Int)).toNat < st.fg_colors.length := by omega
    rw [if_neg hi, if_pos hlt, if_neg hi]

theorem in_range_set (l : List Int) (n : Nat) (c : Int) (hc1 : -1 ≤ c) (hc2 : c ≤ 255)
    (h : ∀ x ∈ l, -1 ≤ x ∧ x ≤ 255) : ∀ x ∈ l.set n c, -1 ≤ x ∧ x ≤ 255 := by
  intro x hx
  rcases List.mem_or_eq_of_mem_set hx with hmem | rfl
  · exact h x hmem
  · exact ⟨hc1, hc2⟩

/-- One `set_color` call with an index in range returns and keeps the table
sizes and the color range, whatever the text. -/
theorem set_color_step (env : Env) (st : State) (opt : command_mode_option)
    (i : Int) (value : String) (hdata : opt.data = VoidPtr.int i)
    (hlo : 0 ≤ i) (hhi : i < 2 * (env.NR_COLORS : Int))
    (htab : st.tables_ok env) (hinv : st.colors_in_range) :
    ∃ st', set_color env opt value st = some st' ∧ st'.tables_ok env ∧
      st'.colors_in_range := by
  by_cases hbad : (env.str_to_int value).1 ≠ 0 ∨ (env.str_to_int value).2 < -1 ∨
      255 < (env.str_to_int value).2
  · exact ⟨_, set_color_reject env st opt i value hdata hlo hhi hbad, htab, hinv⟩
  · have hrc : (env.str_to_int value).1 = 0 := by
      by_contra h
      exact hbad (Or.inl h)
    have hc1 : -1 ≤ (env.str_to_int value).2 := by
      by_contra h
      exact hbad (Or.inr (Or.inl (by omega)))
    have hc2 : (env.str_to_int value).2 ≤ 255 := by
      by_contra h
      exact hbad (Or.inr (Or.inr (by omega)))
    refine ⟨_, set_color_accept_eq env st opt i value hdata htab hlo hhi hrc hc1 hc2, ?_, ?_⟩
    · by_cases hi : i < (env.NR_COLORS : Int)
      · rw [if_pos hi]
        exact ⟨by simp [State.emit, htab.1], htab.2⟩
      · rw [if_neg hi]
        exact ⟨htab.1, by simp [State.emit, htab.2]⟩
    · by_cases hi : i < (env.NR_COLORS : Int)
      · rw [if_pos hi]
        exact ⟨in_range_set _ _ _ hc1 hc2 hinv.1, hinv.2⟩
      · rw [if_neg hi]
        exact ⟨hinv.1, in_range_set _ _ _ hc1 hc2 hinv.2⟩

/-- For an index in range `get_color` reads the background slot `i` when
`i < NR_COLORS` and the foreground slot `i - NR_COLORS` otherwise. -/
theorem get_color_slot (env : Env) (s : State) (opt : command_mode_option) (i : Int)
    (hdata : opt.data = VoidPtr.int i) (hlo : 0 ≤ i) (hhi : i < 2 * (env.NR_COLORS : Int)) :
    get_color env opt s =
      (if i < (env.NR_COLORS : Int) then s.bg_colors[i.toNat]?
       else s.fg_colors[(i - (env.NR_COLORS : Int)).toNat]?).map fmt_d := by
  unfold get_color
  rw [hdata]
  simp only [ge_iff_le]
  rw [if_neg (by omega), if_neg (by omega)]

/-! ## Registry contents -/

theorem foldl_init_fmt_options (env : Env) (l : List Nat) (st : State) :
    (l.foldl (init_fmt env) st).options = st.options ++ l.map fmt_option := by
  induction l generalizing st with
  | nil => simp
  | cons i l ih =>
    rw [List.foldl_cons, ih]
    simp [init_fmt, option_add, fmt_option]

theorem foldl_init_color_options (env : Env) (l : List Nat) (st : State) :
    (l.foldl (init_color env) st).options =
      st.options ++ l.flatMap (fun i => color_option_pair env i (env.color_names.getD i "")) := by
  induction l generalizing st with
  | nil => simp
  | cons i l ih =>
    rw [List.foldl_cons, ih]
    simp [init_color, option_add, color_option_pair]

theorem foldl_callback_options (data : VoidPtr) (l : List String) (st : State) :
    (l.foldl (fun s name => player_option_callback data name s) st).options =
      st.options ++ l.map (op_option data) := by
  induction l generalizing st with
  | nil => simp
  | cons n l ih =>
    rw [List.foldl_cons, ih]
    simp [player_option_callback, option_add, op_option]

/-- The registry after `options_init`, descriptor by descriptor. -/
theorem options_init_options (env : Env) (st : State) :
    (options_init env st).options =
      st.options ++ (List.range NR_FMTS).map fmt_option ++
      (List.range env.NR_COLORS).flatMap
        (fun i => color_option_pair env i (env.color_names.getD i "")) ++
      fixed_options ++ env.op_option_names.map (op_option NULL) := by
  unfold options_init player_for_each_op_option
  simp only [foldl_callback_options, option_add, foldl_init_color_options,
    foldl_init_fmt_options, fixed_options, List.append_assoc, List.cons_append,
    List.nil_append]

theorem take_bytes_fits (cs : List Char) (n : Nat)
    (h : (cs.map Char.utf8Size).sum ≤ n) : take_bytes n cs = cs := by
  induction cs generalizing n with
  | nil => rfl
  | cons c cs ih =>
    simp only [List.map_cons, List.sum_cons] at h
    rw [take_bytes, if_pos (by omega), ih (n - c.utf8Size) (by omega)]

/-- A text of at most 63 bytes is not cut by `snprintf` into a 64 byte
buffer. -/
theorem snprintf_fits (s : String) (h : strlen s ≤ 63) : snprintf 64 s = s := by
  unfold snprintf
  have hd : (s.data.map Char.utf8Size).sum ≤ 64 - 1 := h
  rw [take_bytes_fits s.data (64 - 1) hd]

theorem strlen_append (a b : String) : strlen (a ++ b) = strlen a + strlen b := by
  simp only [strlen, String.data_append, List.map_append, List.sum_append]

theorem range_map_getD (l : List String) :
    (List.range l.length).map (fun i => l.getD i "") = l := by
  apply List.ext_getElem
  · simp
  · intro n h1 h2
    simp [List.getD_eq_getElem?_getD, h2]

theorem color_names_fit (l : List String) (hfit : ∀ c ∈ l, strlen c ≤ 54) :
    l.flatMap (fun c => [snprintf 64 ("color_" ++ c ++ "_bg"),
      snprintf 64 ("color_" ++ c ++ "_fg")]) =
    l.flatMap (fun c => ["color_" ++ c ++ "_bg", "color_" ++ c ++ "_fg"]) := by
  induction l with
  | nil => simp only [List.flatMap_nil]
  | cons c l ih =>
    have hc : strlen c ≤ 54 := hfit c (List.mem_cons_self c l)
    have h6 : strlen "color_" = 6 := by decide
    have h3 : strlen "_bg" = 3 := by decide
    have h3f : strlen "_fg" = 3 := by decide
    have hbg : snprintf 64 ("color_" ++ c ++ "_bg") = "color_" ++ c ++ "_bg" :=
      snprintf_fits _ (by rw [strlen_append, strlen_append, h6, h3]; omega)
    have hfg : snprintf 64 ("color_" ++ c ++ "_fg") = "color_" ++ c ++ "_fg" :=
      snprintf_fits _ (by rw [strlen_append, strlen_append, h6, h3f]; omega)
    rw [List.flatMap_cons, List.flatMap_cons, ih (fun x hx => hfit x (List.mem_cons_of_mem c hx)),
      hbg, hfg]

theorem color_option_names (env : Env) (hlen : env.color_names.length = env.NR_COLORS) :
    ((List.range env.NR_COLORS).flatMap
      (fun i => color_option_pair env i (env.color_names.getD i ""))).map
        command_mode_option.name =
    env.color_names.flatMap (fun c => [snprintf 64 ("color_" ++ c ++ "_bg"),
      snprintf 64 ("color_" ++ c ++ "_fg")]) := by
  conv_rhs => rw [← range_map_getD env.color_names]
  rw [hlen, List.map_flatMap, List.flatMap_map]
  simp only [color_option_pair, List.map_cons, List.map_nil, Function.comp_def]

/-- Every descriptor `options_init` adds to an empty registry pairs the get
and set accessor of one family with a context value that family accepts. -/
theorem registered_cases (env : Env) (st0 : State) (opt : command_mode_option)
    (hempty : st0.options = []) (hreg : opt ∈ (options_init env st0).options) :
    (opt.get = GetFn.get_format ∧ opt.set = SetFn.set_format ∧
      ∃ p, opt.data = VoidPtr.var p) ∨
    (opt.get = GetFn.get_color ∧ opt.set = SetFn.set_color ∧
      ∃ i : Int, opt.data = VoidPtr.int i ∧ 0 ≤ i ∧ i < 2 * (env.NR_COLORS : Int)) ∨
    (opt.get = GetFn.get_output_plugin ∧ opt.set = SetFn.set_output_plugin) ∨
    (opt.get = GetFn.get_buffer_seconds ∧ opt.set = SetFn.set_buffer_seconds) ∨
    (opt.get = GetFn.get_status_display_program ∧
      opt.set = SetFn.set_status_display_program) ∨
    (opt.get = GetFn.get_sort ∧ opt.set = SetFn.set_sort) ∨
    (opt.get = GetFn.get_op_option ∧ opt.set = SetFn.set_op_option ∧ opt.data = NULL) := by
  rw [options_init_options, hempty] at hreg
  simp only [List.nil_append, List.mem_append, List.mem_map, List.mem_flatMap,
    List.mem_range] at hreg
  rcases hreg with (((⟨i, _, rfl⟩ | ⟨i, hi, hmem⟩) | hfix) | ⟨n, _, rfl⟩)
  · exact Or.inl ⟨rfl, rfl, _, rfl⟩
  · right; left
    simp only [color_option_pair, List.mem_cons, List.mem_singleton, List.mem_nil_iff,
      or_false] at hmem
    rcases hmem with rfl | rfl
    · exact ⟨rfl, rfl, (i : Int), rfl, by omega, by omega⟩
    · exact ⟨rfl, rfl, (i : Int) + (env.NR_COLORS : Int), rfl, by omega, by omega⟩
  · simp only [fixed_options, List.mem_cons, List.mem_singleton, List.mem_nil_iff,
      or_false] at hfix
    rcases hfix with rfl | rfl | rfl | rfl
    · exact Or.inr (Or.inr (Or.inl ⟨rfl, rfl⟩))
    · exact Or.inr (Or.inr (Or.inr (Or.inl ⟨rfl, rfl⟩)))
    · exact Or.inr (Or.inr (Or.inr (Or.inr (Or.inl ⟨rfl, rfl⟩))))
    · exact Or.inr (Or.inr (Or.inr (Or.inr (Or.inr (Or.inl ⟨rfl, rfl⟩)))))
  · exact Or.inr (Or.inr (Or.inr (Or.inr (Or.inr (Or.inr ⟨rfl, rfl, rfl⟩)))))

theorem no_error_after_emit (st : State) (msg : String)
    (h : ∀ m, Event.ui_curses_display_error_msg m ∉
      (st.emit (Event.ui_curses_display_error_msg msg)).events.drop st.events.length) :
    False := by
  apply h msg
  simp [State.emit]

/-- Every color descriptor `options_init` adds to an empty registry is the
background or the foreground descriptor of one color `k < NR_COLORS`. -/
theorem registered_color_cases (env : Env) (st0 : State) (opt : command_mode_option)
    (hempty : st0.options = []) (hreg : opt ∈ (options_init env st0).options)
    (hcolor : opt.set = SetFn.set_color ∨ opt.get = GetFn.get_color) :
    ∃ k : Nat, k < env.NR_COLORS ∧
      opt ∈ color_option_pair env k (env.color_names.getD k "") := by
  rw [options_init_options, hempty] at hreg
  simp only [List.nil_append, List.mem_append, List.mem_map, List.mem_flatMap,
    List.mem_range] at hreg
  rcases hreg with (((⟨i, _, rfl⟩ | ⟨i, hi, hmem⟩) | hfix) | ⟨n, _, rfl⟩)
  · rcases hcolor with h | h <;> simp [fmt_option] at h
  · exact ⟨i, hi, hmem⟩
  · simp only [fixed_options, List.mem_cons, List.mem_singleton, List.mem_nil_iff,
      or_false] at hfix
    rcases hfix with rfl | rfl | rfl | rfl <;> rcases hcolor with h | h <;> simp at h
  · rcases hcolor with h | h <;> simp [op_option] at h

theorem get_color_returns (env : Env) (st : State) (opt : command_mode_option) (i : Int)
    (hdata : opt.data = VoidPtr.int i) (hlo : 0 ≤ i) (hhi : i < 2 * (env.NR_COLORS : Int))
    (htab : st.tables_ok env) : ∃ r, get_color env opt st = some r := by
  rw [get_color_slot env st opt i hdata hlo hhi]
  obtain ⟨hb, hf⟩ := htab
  by_cases hi : i < (env.NR_COLORS : Int)
  · have hlt : i.toNat < st.bg_colors.length := by omega
    rw [if_pos hi, List.getElem?_eq_getElem hlt]
    exact ⟨_, rfl⟩
  · have hlt : (i - (env.NR_COLORS : Int)).toNat < st.fg_colors.length := by omega
    rw [if_neg hi, List.getElem?_eq_getElem hlt]
    exact ⟨_, rfl⟩

theorem set_color_returns (env : Env) (st : State) (opt : command_mode_option) (i : Int)
    (value : String) (hdata : opt.data = VoidPtr.int i) (hlo : 0 ≤ i)
    (hhi : i < 2 * (env.NR_COLORS : Int)) (htab : st.tables_ok env) :
    ∃ st', set_color env opt value st = some st' := by
  by_cases hbad : (env.str_to_int value).1 ≠ 0 ∨ (env.str_to_int value).2 < -1 ∨
      255 < (env.str_to_int value).2
  · exact ⟨_, set_color_reject env st opt i value hdata hlo hhi hbad⟩
  · have hrc : (env.str_to_int value).1 = 0 := by
      by_contra h
      exact hbad (Or.inl h)
    have hc1 : -1 ≤ (env.str_to_int value).2 := by
      by_contra h
      exact hbad (Or.inr (Or.inl (by omega)))
    have hc2 : (env.str_to_int value).2 ≤ 255 := by
      by_contra h
      exact hbad (Or.inr (Or.inr (by omega)))
    exact ⟨_, set_color_accept_eq env st opt i value hdata htab hlo hhi hrc hc1 hc2⟩

/-! ## Startup and shutdown of the format variables -/

theorem foldl_init_color_frame (env : Env) (l : List Nat) (st : State) :
    (l.foldl (init_color env) st).fmt = st.fmt ∧
    (l.foldl (init_color env) st).events = st.events := by
  induction l generalizing st with
  | nil => exact ⟨rfl, rfl⟩
  | cons i l ih =>
    rw [List.foldl_cons]
    exact ih _

theorem foldl_callback_frame (data : VoidPtr) (l : List String) (st : State) :
    (l.foldl (fun s name => player_option_callback data name s) st).fmt = st.fmt ∧
    (l.foldl (fun s name => player_option_callback data name s) st).events = st.events := by
  induction l generalizing st with
  | nil => exact ⟨rfl, rfl⟩
  | cons n l ih =>
    rw [List.foldl_cons]
    exact ih _

theorem foldl_init_fmt_events (env : Env) (l : List Nat) (st : State) :
    (l.foldl (init_fmt env) st).events = st.events := by
  induction l generalizing st with
  | nil => rfl
  | cons i l ih =>
    rw [List.foldl_cons]
    exact ih _

theorem range_NR_FMTS : List.range NR_FMTS = [0, 1, 2, 3, 4, 5, 6, 7] := by decide

/-- After `options_init` the format variables are those left by its first
loop, and no collaborator has been called. -/
theorem options_init_frame (env : Env) (st : State) :
    (options_init env st).fmt = ((List.range NR_FMTS).foldl (init_fmt env) st).fmt ∧
    (options_init env st).events = st.events := by
  unfold options_init player_for_each_op_option
  simp only [option_add, (foldl_callback_frame _ _ _).1, (foldl_callback_frame _ _ _).2,
    (foldl_init_color_frame _ _ _).1, (foldl_init_color_frame _ _ _).2,
    foldl_init_fmt_events, and_self]

theorem options_exit_events (s : State) :
    (options_exit s).events = s.events ++
      (List.zip fmt_names fmt_vars).map
        (fun np => Event.sconf_set_str_option np.1 (s.fmt np.2)) := by
  unfold options_exit
  rw [range_NR_FMTS]
  simp [State.emit, fmt_names, fmt_vars]

theorem options_init_fmt (env : Env) (st : State) :
    fmt_vars.map (options_init env st).fmt =
      (List.zip fmt_names fmt_defaults).map
        (fun nd => (env.sconf_get_str_option nd.1).getD nd.2) := by
  rw [(options_init_frame env st).1, range_NR_FMTS]
  simp only [List.foldl_cons, List.foldl_nil, init_fmt, option_add, fmt_names, fmt_vars,
    fmt_defaults, List.getD_cons_zero, List.getD_cons_succ, List.map_cons, List.map_nil,
    List.zip_cons_cons, List.zip_nil_right]
  simp [Function.update]
  refine ⟨?_, ?_, ?_, ?_, ?_, ?_, ?_, ?_⟩ <;> cases env.sconf_get_str_option _ <;> rfl

/-! ## Distinct names -/

theorem color_name_head (c suf : String) :
    ("color_" ++ c ++ suf).data.head? = some 'c' := by
  rw [String.data_append, String.data_append]
  rfl

theorem literal_names_head :
    ∀ y ∈ ["altformat_current", "altformat_playlist", "altformat_title",
      "altformat_trackwin", "format_current", "format_playlist", "format_title",
      "format_trackwin", "output_plugin", "buffer_seconds", "status_display_program",
      "sort"], y.data.head? ≠ some 'c' := by
  decide

theorem color_name_split (a b s t : String) (hlen : s.data.length = t.data.length)
    (h : "color_" ++ a ++ s = "color_" ++ b ++ t) : a = b ∧ s = t := by
  have hd := congrArg String.data h
  simp only [String.data_append] at hd
  obtain ⟨h1, h2⟩ := List.append_inj' hd hlen
  exact ⟨String.ext (List.append_cancel_left h1), String.ext h2⟩

theorem color_names_nodup (l : List String) (h : l.Nodup) :
    (l.flatMap (fun c => ["color_" ++ c ++ "_bg", "color_" ++ c ++ "_fg"])).Nodup := by
  have hne : "_bg" ≠ "_fg" := by decide
  rw [List.nodup_flatMap]
  constructor
  · intro c _
    simp only [List.nodup_cons, List.mem_singleton, List.not_mem_nil, not_false_eq_true,
      List.nodup_nil, and_true]
    intro hbf
    exact hne (color_name_split c c "_bg" "_fg" rfl hbf).2
  · refine List.Pairwise.imp ?_ h
    intro a b hab
    simp only [Function.onFun, List.disjoint_left, List.mem_cons, List.mem_singleton,
      List.not_mem_nil, or_false]
    rintro x (rfl | rfl) (hx | hx)
    · exact hab (color_name_split a b "_bg" "_bg" rfl hx).1
    · exact hne (color_name_split a b "_bg" "_fg" rfl hx).2
    · exact hne (color_name_split b a "_bg" "_fg" rfl hx.symm).2
    · exact hab (color_name_split a b "_fg" "_fg" rfl hx).1

theorem color_names_head (l : List String)
    (x : String) (hx : x ∈ l.flatMap (fun c => ["color_" ++ c ++ "_bg", "color_" ++ c ++ "_fg"])) :
    x.data.head? = some 'c' := by
  simp only [List.mem_flatMap, List.mem_cons, List.mem_singleton, List.not_mem_nil,
    or_false] at hx
  obtain ⟨c, _, rfl | rfl⟩ := hx
  · exact color_name_head c "_bg"
  · exact color_name_head c "_fg"

theorem builtin_names_nodup (env : Env) (hcol : env.color_names.Nodup) :
    (builtin_names env).Nodup := by
  unfold builtin_names
  have hlit := literal_names_head
  refine List.Nodup.append (List.Nodup.append (by decide) (color_names_nodup _ hcol) ?_)
    (by decide) ?_
  · intro x h1 h2
    exact hlit x (by
      simp only [List.mem_cons, List.mem_singleton, List.not_mem_nil, or_false] at h1 ⊢
      tauto) (color_names_head _ x h2)
  · intro x h1 h3
    rcases List.mem_append.1 h1 with h | h
    · have key : ∀ y ∈ ["altformat_current", "altformat_playlist", "altformat_title",
          "altformat_trackwin", "format_current", "format_playlist", "format_title",
          "format_trackwin"],
          y ∉ ["output_plugin", "buffer_seconds", "status_display_program", "sort"] := by
        decide
      exact key x h h3
    · exact hlit x (by
        simp only [List.mem_cons, List.mem_singleton, List.not_mem_nil, or_false] at h3 ⊢
        tauto) (color_names_head _ x h)

/-- The names in the registry after `options_init`, in registration order, as
`snprintf` leaves them in the name buffer. -/
theorem registered_names_cut (env : Env) (st : State) (hempty : st.options = [])
    (hlen : env.color_names.length = env.NR_COLORS) :
    (options_init env st).options.map command_mode_option.name =
      ["altformat_current", "altformat_playlist", "altformat_title", "altformat_trackwin",
       "format_current", "format_playlist", "format_title", "format_trackwin"] ++
      env.color_names.flatMap (fun c => [snprintf 64 ("color_" ++ c ++ "_bg"),
        snprintf 64 ("color_" ++ c ++ "_fg")]) ++
      ["output_plugin", "buffer_seconds", "status_display_program", "sort"] ++
      env.op_option_names := by
  rw [options_init_options, hempty]
  simp only [List.map_append, List.nil_append]
  rw [color_option_names env hlen]
  have hfmt : ((List.range NR_FMTS).map fmt_option).map command_mode_option.name =
      ["altformat_current", "altformat_playlist", "altformat_title", "altformat_trackwin",
       "format_current", "format_playlist", "format_title", "format_trackwin"] := by
    decide
  have hop : (env.op_option_names.map (op_option NULL)).map command_mode_option.name =
      env.op_option_names := by
    simp [op_option, Function.comp_def]
  rw [hfmt, hop]
  simp only [fixed_options, List.map_cons, List.map_nil]

/-- The names in the registry after `options_init`, in registration order,
when no color name is cut. -/
theorem registered_names_eq (env : Env) (st : State) (hempty : st.options = [])
    (hlen : env.color_names.length = env.NR_COLORS)
    (hfit : ∀ c ∈ env.color_names, strlen c ≤ 54) :
    (options_init env st).options.map command_mode_option.name =
      builtin_names env ++ env.op_option_names := by
  rw [options_init_options, hempty]
  simp only [List.map_append, List.nil_append]
  rw [color_option_names env hlen, color_names_fit env.color_names hfit]
  have hfmt : ((List.range NR_FMTS).map fmt_option).map command_mode_option.name =
      ["altformat_current", "altformat_playlist", "altformat_title", "altformat_trackwin",
       "format_current", "format_playlist", "format_title", "format_trackwin"] := by
    decide
  have hop : (env.op_option_names.map (op_option NULL)).map command_mode_option.name =
      env.op_option_names := by
    simp [op_option, Function.comp_def]
  rw [hfmt, hop]
  simp only [builtin_names, fixed_options, List.map_cons, List.map_nil]

/-! ## The claims -/

/-- C1: for a color index in `[0, 2*NR_COLORS)` and a text for which
`str_to_int` fails or yields a value below -1 or above 255, `set_color` returns
with both color tables unchanged (so `get_color` of every descriptor is
unchanged), and the only call it makes is one `ui_curses_display_error_msg`;
in particular `ui_curses_update_color` is not called. -/
theorem set_color_invalid_value (env : Env) (st : State) (opt : command_mode_option)
    (i : Int) (value : String) (hdata : opt.data = VoidPtr.int i)
    (hlo : 0 ≤ i) (hhi : i < 2 * (env.NR_COLORS : Int))
    (hbad : (env.str_to_int value).1 ≠ 0 ∨ (env.str_to_int value).2 < -1 ∨
      255 < (env.str_to_int value).2) :
    ∃ st' msg, set_color env opt value st = some st' ∧
      st'.bg_colors = st.bg_colors ∧ st'.fg_colors = st.fg_colors ∧
      (∀ o, get_color env o st' = get_color env o st) ∧
      st'.events = st.events ++ [Event.ui_curses_display_error_msg msg] ∧
      (∀ j, Event.ui_curses_update_color j ∉ [Event.ui_curses_display_error_msg msg]) := by
  refine ⟨st.emit (Event.ui_curses_display_error_msg ("color value must be -1.." ++ fmt_d 255)),
    "color value must be -1.." ++ fmt_d 255,
    set_color_reject env st opt i value hdata hlo hhi hbad, rfl, rfl, ?_, rfl, ?_⟩
  · intro o
    exact get_color_congr env o _ _ rfl rfl
  · intro j
    simp

theorem set_color_invalid_value_witness :
    ∃ st' msg, set_color sample_env sample_color_opt "300" sample_state = some st' ∧
      st'.bg_colors = sample_state.bg_colors ∧ st'.fg_colors = sample_state.fg_colors ∧
      (∀ o, get_color sample_env o st' = get_color sample_env o sample_state) ∧
      st'.events = sample_state.events ++ [Event.ui_curses_display_error_msg msg] ∧
      (∀ j, Event.ui_curses_update_color j ∉ [Event.ui_curses_display_error_msg msg]) :=
  set_color_invalid_value sample_env sample_state sample_color_opt 1 "300" rfl
    (by decide) (by decide) (by decide)

/-- C2: for a color index in `[0, 2*NR_COLORS)` and an integer `c` with
`-1 ≤ c ≤ 255` whose decimal text `str_to_int` parses to `c`, `set_color` with
the decimal text of `c` succeeds and `get_color` of the same descriptor then
returns exactly the decimal text of `c`. -/
theorem set_color_get_color (env : Env) (st : State) (opt : command_mode_option)
    (i c : Int) (hdata : opt.data = VoidPtr.int i) (hok : st.tables_ok env)
    (hlo : 0 ≤ i) (hhi : i < 2 * (env.NR_COLORS : Int))
    (hc1 : -1 ≤ c) (hc2 : c ≤ 255) (hparse : env.str_to_int (fmt_d c) = (0, c)) :
    ∃ st', set_color env opt (fmt_d c) st = some st' ∧
      get_color env opt st' = some (fmt_d c) := by
  have h := set_color_accept env st opt i (fmt_d c) hdata hok hlo hhi
    (by rw [hparse]) (by rw [hparse]; exact hc1) (by rw [hparse]; exact hc2)
  rw [hparse] at h
  exact h

theorem set_color_get_color_witness :
    ∃ st', set_color sample_env sample_color_opt (fmt_d (-1)) sample_state = some st' ∧
      get_color sample_env sample_color_opt st' = some (fmt_d (-1)) :=
  set_color_get_color sample_env sample_state sample_color_opt 1 (-1) rfl
    ⟨rfl, rfl⟩ (by decide) (by decide) (by decide) (by decide) (by rfl)

/-- C3: for a descriptor whose data points to a format variable and a text
that `format_valid` rejects, `set_format` returns with every format variable
unchanged (`get_format` of every descriptor returns what it returned before),
and the only call it makes is one `ui_curses_display_error_msg`: neither
`ui_curses_update_view` nor `ui_curses_update_titleline` is called. -/
theorem set_format_invalid (env : Env) (st : State) (opt : command_mode_option)
    (p : FmtVar) (value : String) (hdata : opt.data = VoidPtr.var p)
    (hbad : env.format_valid value = false) :
    ∃ st' msg, set_format env opt value st = some st' ∧
      st'.fmt = st.fmt ∧
      (∀ o, get_format o st' = get_format o st) ∧
      st'.events = st.events ++ [Event.ui_curses_display_error_msg msg] ∧
      Event.ui_curses_update_view ∉ [Event.ui_curses_display_error_msg msg] ∧
      Event.ui_curses_update_titleline ∉ [Event.ui_curses_display_error_msg msg] := by
  refine ⟨st.emit (Event.ui_curses_display_error_msg "invalid format string"),
    "invalid format string", ?_, rfl, fun o => rfl, rfl, by simp, by simp⟩
  unfold set_format
  rw [hdata]
  simp [hbad]

theorem set_format_invalid_witness :
    ∃ st' msg, set_format sample_env sample_format_opt "%" sample_state = some st' ∧
      st'.fmt = sample_state.fmt ∧
      (∀ o, get_format o st' = get_format o sample_state) ∧
      st'.events = sample_state.events ++ [Event.ui_curses_display_error_msg msg] ∧
      Event.ui_curses_update_view ∉ [Event.ui_curses_display_error_msg msg] ∧
      Event.ui_curses_update_titleline ∉ [Event.ui_curses_display_error_msg msg] :=
  set_format_invalid sample_env sample_state sample_format_opt FmtVar.window_title_format "%"
    rfl (by decide)

/-- C4: for a descriptor whose data points to a format variable and a text
`v` that `format_valid` accepts, `set_format` stores `v`, so that `get_format`
of the same descriptor returns `v` verbatim; the calls it makes are exactly one
`ui_curses_update_view` and one `ui_curses_update_titleline`, and no
`ui_curses_display_error_msg`. -/
theorem set_format_valid (env : Env) (st : State) (opt : command_mode_option)
    (p : FmtVar) (v : String) (hdata : opt.data = VoidPtr.var p)
    (hgood : env.format_valid v = true) :
    ∃ st' calls, set_format env opt v st = some st' ∧
      get_format opt st' = some v ∧
      st'.events = st.events ++ calls ∧
      calls.count Event.ui_curses_update_view = 1 ∧
      calls.count Event.ui_curses_update_titleline = 1 ∧
      (∀ msg, Event.ui_curses_display_error_msg msg ∉ calls) := by
  refine ⟨({ st with fmt := Function.update st.fmt p v }.emit
      Event.ui_curses_update_view).emit Event.ui_curses_update_titleline,
    [Event.ui_curses_update_view, Event.ui_curses_update_titleline], ?_, ?_, ?_, by decide,
    by decide, by simp⟩
  · unfold set_format
    rw [hdata]
    simp [hgood]
  · unfold get_format
    rw [hdata]
    simp [State.emit]
  · simp [State.emit]

theorem set_format_valid_witness :
    ∃ st' calls, set_format sample_env sample_format_opt "%a - %t" sample_state = some st' ∧
      get_format sample_format_opt st' = some "%a - %t" ∧
      st'.events = sample_state.events ++ calls ∧
      calls.count Event.ui_curses_update_view = 1 ∧
      calls.count Event.ui_curses_update_titleline = 1 ∧
      (∀ msg, Event.ui_curses_display_error_msg msg ∉ calls) :=
  set_format_valid sample_env sample_state sample_format_opt FmtVar.window_title_format
    "%a - %t" rfl (by decide)

/-- C5 (as amended): for an integer `N` accepted by `str_to_int` whose
conversion does not overflow (`N * 44100 * 16` fits `long int`,
`N * 176400` fits `int`), a positive `CHUNK_SIZE` and a player that stores
exactly the chunk count it is handed, `set_buffer_seconds` followed by
`get_buffer_seconds` returns the decimal text of
`r = (stored chunks * CHUNK_SIZE) / 176400` truncated toward zero.  `r = N`
when `N * 176400` is divisible by `CHUNK_SIZE`; for `N ≥ 0`, `r` is the floor
of that quotient and `0 ≤ r ≤ N`; for `N ≤ 0`, `N ≤ r ≤ 0`. -/
theorem buffer_seconds_set_get (env : Env) (st : State) (value : String) (N : Int)
    (hparse : env.str_to_int value = (0, N))
    (hstore : ∀ old n, env.stored_buffer_size old n = n)
    (hcs : 0 < env.CHUNK_SIZE) (hb : 1 ≤ env.LONG_BITS)
    (hl1 : -(2 ^ (env.LONG_BITS - 1)) ≤ N * 705600)
    (hl2 : N * 705600 < 2 ^ (env.LONG_BITS - 1))
    (hi1 : -(2 ^ 31) ≤ N * 176400) (hi2 : N * 176400 < 2 ^ 31) :
    ∃ st' r, set_buffer_seconds env value st = some st' ∧
      st'.player_buffer_size = buffer_chunks env N ∧
      get_buffer_seconds env st' = some (fmt_d r) ∧
      r = cdiv (st'.player_buffer_size * env.CHUNK_SIZE) 176400 ∧
      (env.CHUNK_SIZE ∣ N * 176400 → r = N) ∧
      (0 ≤ N → r = (st'.player_buffer_size * env.CHUNK_SIZE) / 176400 ∧ 0 ≤ r ∧ r ≤ N) ∧
      (N ≤ 0 → N ≤ r ∧ r ≤ 0) := by
  have hq := buffer_chunks_eq env N hb hl1 hl2
  have hset : set_buffer_seconds env value st =
      some ({ st with player_buffer_size := buffer_chunks env N }.emit
        (Event.player_set_buffer_size (buffer_chunks env N))) := by
    unfold set_buffer_seconds
    simp [hparse, hstore]
  have hbnd : -(2 ^ 31) ≤ buffer_chunks env N * env.CHUNK_SIZE ∧
      buffer_chunks env N * env.CHUNK_SIZE < 2 ^ 31 := by
    rw [hq]
    rcases le_total 0 N with hN | hN
    · have h := tdiv_mul_nonneg (N * 176400) env.CHUNK_SIZE (by omega) hcs
      constructor <;> linarith [h.1, h.2]
    · have h := tdiv_mul_nonpos (N * 176400) env.CHUNK_SIZE (by omega) hcs
      constructor <;> linarith [h.1, h.2]
  refine ⟨_, cdiv (buffer_chunks env N * env.CHUNK_SIZE) 176400, hset, rfl, ?_, rfl, ?_, ?_, ?_⟩
  · unfold get_buffer_seconds
    rw [seconds_divisor]
    simp only [State.emit]
    rw [wrap_eq_self INT_BITS _ (by decide) (by simpa [INT_BITS] using hbnd.1)
      (by simpa [INT_BITS] using hbnd.2)]
  · intro hdvd
    unfold cdiv
    rw [hq, Int.tdiv_eq_ediv_of_dvd hdvd, Int.ediv_mul_cancel hdvd,
      Int.mul_tdiv_cancel _ (by decide)]
  · intro hN
    have h := tdiv_mul_nonneg (N * 176400) env.CHUNK_SIZE (by omega) hcs
    rw [← hq] at h
    simp only [State.emit]
    unfold cdiv
    rw [Int.tdiv_eq_ediv h.1 (by decide)]
    refine ⟨rfl, Int.ediv_nonneg h.1 (by decide), ?_⟩
    calc buffer_chunks env N * env.CHUNK_SIZE / 176400
        ≤ N * 176400 / 176400 := Int.ediv_le_ediv (by decide) h.2
      _ = N := Int.mul_ediv_cancel N (by decide)
  · intro hN
    have h := tdiv_mul_nonpos (N * 176400) env.CHUNK_SIZE (by omega) hcs
    rw [← hq] at h
    unfold cdiv
    have hx : buffer_chunks env N * env.CHUNK_SIZE =
        -(-(buffer_chunks env N * env.CHUNK_SIZE)) := by ring
    rw [hx, Int.neg_tdiv, Int.tdiv_eq_ediv (by linarith [h.2]) (by decide)]
    have h0 : 0 ≤ -(buffer_chunks env N * env.CHUNK_SIZE) / 176400 :=
      Int.ediv_nonneg (by linarith [h.2]) (by decide)
    have h1 : -(buffer_chunks env N * env.CHUNK_SIZE) / 176400 ≤ -N :=
      calc -(buffer_chunks env N * env.CHUNK_SIZE) / 176400
          ≤ (-N) * 176400 / 176400 := Int.ediv_le_ediv (by decide) (by linarith [h.1])
        _ = -N := Int.mul_ediv_cancel (-N) (by decide)
    constructor <;> linarith

theorem buffer_seconds_set_get_witness :
    ∃ st' r, set_buffer_seconds sample_env "256" sample_state = some st' ∧
      st'.player_buffer_size = buffer_chunks sample_env 256 ∧
      get_buffer_seconds sample_env st' = some (fmt_d r) ∧
      r = cdiv (st'.player_buffer_size * sample_env.CHUNK_SIZE) 176400 ∧
      (sample_env.CHUNK_SIZE ∣ 256 * 176400 → r = 256) ∧
      (0 ≤ (256 : Int) →
        r = (st'.player_buffer_size * sample_env.CHUNK_SIZE) / 176400 ∧ 0 ≤ r ∧ r ≤ 256) ∧
      ((256 : Int) ≤ 0 → 256 ≤ r ∧ r ≤ 0) :=
  buffer_seconds_set_get sample_env sample_state "256" 256 (by rfl) (fun _ _ => rfl)
    (by decide) (by decide) (by decide) (by decide) (by decide) (by decide)

/-- C5 fails as stated at `N = -1` with 60 KiB chunks: "-1" is accepted, the
player is handed and stores -2 chunks, `-1 * 176400` is not divisible by
`CHUNK_SIZE`, and the value read back is "0", which is neither the floor of
`-2 * CHUNK_SIZE / 176400` (that is -1) nor at most `N`. -/
theorem buffer_seconds_negative_counterexample :
    sample_env.str_to_int "-1" = (0, -1) ∧
    ¬ (sample_env.CHUNK_SIZE ∣ (-1) * (44100 * 16 / 8 * 2)) ∧
    (set_buffer_seconds sample_env "-1" sample_state).map State.player_buffer_size
      = some (-2) ∧
    (set_buffer_seconds sample_env "-1" sample_state).map State.events
      = some [Event.player_set_buffer_size (-2)] ∧
    (set_buffer_seconds sample_env "-1" sample_state).bind (get_buffer_seconds sample_env)
      = some "0" ∧
    Int.fdiv (-2 * sample_env.CHUNK_SIZE) (44100 * 16 / 8 * 2) = -1 ∧
    fmt_d (-1) ≠ "0" ∧ fmt_d 0 = "0" ∧ ¬ ((0 : Int) ≤ -1) := by
  refine ⟨by rfl, by decide, by rfl, by rfl, by rfl, by decide, by decide, by rfl, by decide⟩

/-- C6 (as amended): for every descriptor `options_init` adds to an empty
registry other than the one of `buffer_seconds`, `set` with a text `v`
returns.  For a plugin option the following `get` returns the empty string,
whatever `v` was.  For every other descriptor, if `set` reported no error the
following `get` returns: `v` itself for a format string and for
`status_display_program`; the decimal text of the integer `v` parses to for a
color; the text the collaborator keeps for `output_plugin` and `sort` (`v`
when it keeps what it is handed). -/
theorem registered_set_get (env : Env) (st0 st : State) (opt : command_mode_option)
    (v : String) (hempty : st0.options = [])
    (hreg : opt ∈ (options_init env st0).options)
    (hnb : opt.set ≠ SetFn.set_buffer_seconds)
    (htab : st.tables_ok env) :
    ∃ st', option_set env opt v st = some st' ∧
      (opt.set = SetFn.set_op_option → option_get env opt st' = some "") ∧
      ((∀ msg, Event.ui_curses_display_error_msg msg ∉
          st'.events.drop st.events.length) →
        (opt.set = SetFn.set_format ∨ opt.set = SetFn.set_status_display_program →
          option_get env opt st' = some v) ∧
        (opt.set = SetFn.set_color →
          option_get env opt st' = some (fmt_d (env.str_to_int v).2)) ∧
        (opt.set = SetFn.set_output_plugin →
          option_get env opt st' = some ((env.stored_op st.player_op v).getD "")) ∧
        (opt.set = SetFn.set_sort →
          option_get env opt st' = some (env.stored_sort st.sort_string v))) := by
  rcases registered_cases env st0 opt hempty hreg with
    ⟨hg, hs, p, hd⟩ | ⟨hg, hs, i, hd, hlo, hhi⟩ | ⟨hg, hs⟩ | ⟨_, hs⟩ | ⟨hg, hs⟩ | ⟨hg, hs⟩ |
    ⟨hg, hs, hd⟩
  · -- format strings
    simp only [option_set, option_get, hg, hs]
    by_cases hv : env.format_valid v = true
    · refine ⟨({ st with fmt := Function.update st.fmt p v }.emit
        Event.ui_curses_update_view).emit Event.ui_curses_update_titleline, ?_, by simp, ?_⟩
      · simp [set_format, hd, hv]
      · intro _
        simp [get_format, hd, State.emit]
    · refine ⟨st.emit (Event.ui_curses_display_error_msg "invalid format string"), ?_,
        by simp, ?_⟩
      · simp [set_format, hd, hv]
      · intro hno
        exact (no_error_after_emit st _ hno).elim
  · -- colors
    simp only [option_set, option_get, hg, hs]
    by_cases hbad : (env.str_to_int v).1 ≠ 0 ∨ (env.str_to_int v).2 < -1 ∨
        255 < (env.str_to_int v).2
    · refine ⟨_, set_color_reject env st opt i v hd hlo hhi hbad, by simp, ?_⟩
      intro hno
      exact (no_error_after_emit st _ hno).elim
    · have hrc : (env.str_to_int v).1 = 0 := by
        by_contra h
        exact hbad (Or.inl h)
      have hc1 : -1 ≤ (env.str_to_int v).2 := by
        by_contra h
        exact hbad (Or.inr (Or.inl (by omega)))
      have hc2 : (env.str_to_int v).2 ≤ 255 := by
        by_contra h
        exact hbad (Or.inr (Or.inr (by omega)))
      obtain ⟨st', hset, hget⟩ := set_color_accept env st opt i v hd htab hlo hhi hrc hc1 hc2
      refine ⟨st', hset, by simp, ?_⟩
      intro _
      simp [hget]
  · -- output_plugin
    simp only [option_set, option_get, hg, hs]
    refine ⟨_, rfl, by simp, ?_⟩
    intro _
    cases hso : env.stored_op st.player_op v <;>
      simp [get_output_plugin, set_output_plugin, State.emit, hso]
  · exact absurd hs hnb
  · -- status_display_program
    simp only [option_set, option_get, hg, hs]
    by_cases hv : v = ""
    · refine ⟨{ st with status_display_program := none }, ?_, by simp, ?_⟩
      · simp [set_status_display_program, hv]
      · intro _
        simp [get_status_display_program, hv]
    · refine ⟨{ st with status_display_program := some v }, ?_, by simp, ?_⟩
      · simp [set_status_display_program, hv]
      · intro _
        simp [get_status_display_program]
  · -- sort
    simp only [option_set, option_get, hg, hs]
    refine ⟨_, rfl, by simp, ?_⟩
    intro _
    simp [get_sort, set_sort, State.emit]
  · -- plugin options
    simp only [option_set, option_get, hg, hs]
    refine ⟨st.emit (Event.player_set_op_option opt.name v), ?_, fun _ => rfl, ?_⟩
    · simp [set_op_option, hd]
    · intro _
      simp

theorem registered_set_get_witness :
    ∃ st', option_set sample_env sample_format_opt "%a - %t" sample_state = some st' ∧
      (sample_format_opt.set = SetFn.set_op_option →
        option_get sample_env sample_format_opt st' = some "") ∧
      ((∀ msg, Event.ui_curses_display_error_msg msg ∉
          st'.events.drop sample_state.events.length) →
        (sample_format_opt.set = SetFn.set_format ∨
            sample_format_opt.set = SetFn.set_status_display_program →
          option_get sample_env sample_format_opt st' = some "%a - %t") ∧
        (sample_format_opt.set = SetFn.set_color →
          option_get sample_env sample_format_opt st' =
            some (fmt_d (sample_env.str_to_int "%a - %t").2)) ∧
        (sample_format_opt.set = SetFn.set_output_plugin →
          option_get sample_env sample_format_opt st' =
            some ((sample_env.stored_op sample_state.player_op "%a - %t").getD "")) ∧
        (sample_format_opt.set = SetFn.set_sort →
          option_get sample_env sample_format_opt st' =
            some (sample_env.stored_sort sample_state.sort_string "%a - %t"))) :=
  registered_set_get sample_env sample_state sample_state sample_format_opt "%a - %t" rfl
    (by decide) (by decide) ⟨rfl, rfl⟩

/-- C6 fails as stated for plugin-supplied options: the descriptor
`options_init` registers for the enumerated name "dsp.alsa.device" accepts the
text "default" (the call is forwarded, no error is reported), and the
following get returns the empty string. -/
theorem op_option_get_counterexample :
    op_option NULL "dsp.alsa.device" ∈ (options_init sample_env sample_state).options ∧
    (option_set sample_env (op_option NULL "dsp.alsa.device") "default" sample_state).map
      State.events = some [Event.player_set_op_option "dsp.alsa.device" "default"] ∧
    set_then_get sample_env (op_option NULL "dsp.alsa.device") "default" sample_state
      = some "" ∧
    "" ≠ "default" := by
  refine ⟨?_, by rfl, by rfl, by decide⟩
  rw [options_init_options]
  exact List.mem_append_right _ (List.mem_map_of_mem _ (List.mem_cons_self _ _))

/-- C7: `get_status_display_program` returns the empty string when the
setting is unset and the stored path otherwise; `set_status_display_program`
with the empty string leaves the setting unset, so a following get returns the
empty string; with a non-empty text `v` it stores `v` verbatim whatever the
previous value was, so a following get returns exactly `v`. -/
theorem status_display_program_get_set (st : State) (v : String) :
    (st.status_display_program = none → get_status_display_program st = some "") ∧
    (∀ path, st.status_display_program = some path →
      get_status_display_program st = some path) ∧
    (∃ st', set_status_display_program "" st = some st' ∧
      st'.status_display_program = none ∧ get_status_display_program st' = some "") ∧
    (v ≠ "" → ∃ st', set_status_display_program v st = some st' ∧
      st'.status_display_program = some v ∧ get_status_display_program st' = some v) := by
  refine ⟨?_, ?_, ⟨{ st with status_display_program := none }, rfl, rfl, rfl⟩, ?_⟩
  · intro h
    simp [get_status_display_program, h]
  · intro path h
    simp [get_status_display_program, h]
  · intro hv
    refine ⟨{ st with status_display_program := some v }, ?_, rfl, rfl⟩
    simp [set_status_display_program, hv]

theorem status_display_program_get_set_witness :
    ∃ st', set_status_display_program "/usr/bin/notify" sample_state = some st' ∧
      st'.status_display_program = some "/usr/bin/notify" ∧
      get_status_display_program st' = some "/usr/bin/notify" :=
  (status_display_program_get_set sample_state "/usr/bin/notify").2.2.2 (by decide)

/-- C8 (as amended): starting from an empty registry, when `color_names` has
`NR_COLORS` entries, each at most 54 bytes long (so that `color_<c>_bg` and
`color_<c>_fg` fit the 64 byte name buffer), the names registered by
`options_init` are, in order, the 8 format names, `color_<c>_bg` and
`color_<c>_fg` for each color name `c` (`2 * NR_COLORS` names), `output_plugin`,
`buffer_seconds`, `status_display_program`, `sort`, and the names supplied by
the plugin-option enumerator; there are no other names. -/
theorem options_init_names (env : Env) (st : State) (hempty : st.options = [])
    (hlen : env.color_names.length = env.NR_COLORS)
    (hfit : ∀ c ∈ env.color_names, strlen c ≤ 54) :
    (options_init env st).options.map command_mode_option.name = spec_registered_names env ∧
    (env.color_names.flatMap
      (fun c => ["color_" ++ c ++ "_bg", "color_" ++ c ++ "_fg"])).length =
      2 * env.NR_COLORS := by
  constructor
  · rw [registered_names_cut env st hempty hlen, color_names_fit env.color_names hfit]
    simp only [spec_registered_names]
  · rw [← hlen]
    generalize env.color_names = l
    induction l with
    | nil => simp only [List.flatMap_nil, List.length_nil]
    | cons c l ih =>
      rw [List.flatMap_cons, List.length_append, ih]
      simp only [List.length_cons, List.length_nil]
      omega

theorem options_init_names_witness :
    (options_init sample_env sample_state).options.map command_mode_option.name =
      ["altformat_current", "altformat_playlist", "altformat_title", "altformat_trackwin",
       "format_current", "format_playlist", "format_title", "format_trackwin",
       "color_row_bg", "color_row_fg", "color_title_bg", "color_title_fg",
       "output_plugin", "buffer_seconds", "status_display_program", "sort",
       "dsp.alsa.device"] :=
  (options_init_names sample_env sample_state rfl rfl (by decide)).1

/-- C8 fails as stated for a color name of more than 54 bytes: with the one
60 byte name of `long_name_env`, `color_<c>_bg` and `color_<c>_fg` are 69 bytes
long, the 64 byte buffer keeps the same first 63 bytes of both, and the
registered names are not the ones the specification lists. -/
theorem options_init_long_name_counterexample :
    long_name_env.color_names.length = long_name_env.NR_COLORS ∧
    (options_init long_name_env sample_state).options.map command_mode_option.name =
      ["altformat_current", "altformat_playlist", "altformat_title", "altformat_trackwin",
       "format_current", "format_playlist", "format_title", "format_trackwin",
       "color_aaaaaaaaaabbbbbbbbbbccccccccccddddddddddeeeeeeeeeefffffff",
       "color_aaaaaaaaaabbbbbbbbbbccccccccccddddddddddeeeeeeeeeefffffff",
       "output_plugin", "buffer_seconds", "status_display_program", "sort",
       "dsp.alsa.device"] ∧
    (options_init long_name_env sample_state).options.map command_mode_option.name ≠
      spec_registered_names long_name_env := by
  have hnames := registered_names_cut long_name_env sample_state rfl rfl
  refine ⟨rfl, ?_, ?_⟩
  · rw [hnames]
    decide
  · rw [hnames]
    decide

/-- C9: `options_init` sets each of the 8 format variables to the value the
persistence collaborator holds under the name of the same position in
`fmt_names`, or to the entry of the same position in `fmt_defaults` when it
holds none; `options_exit` pushes, in order, exactly the 8 pairs
(name, current value of that name's variable); hence `options_init` followed
directly by `options_exit` pushes the loaded-or-default value of every format
name. -/
theorem options_init_exit_formats (env : Env) (st : State) :
    fmt_vars.map (options_init env st).fmt =
      (List.zip fmt_names fmt_defaults).map
        (fun nd => (env.sconf_get_str_option nd.1).getD nd.2) ∧
    (∀ s : State, (options_exit s).events = s.events ++
      (List.zip fmt_names fmt_vars).map
        (fun np => Event.sconf_set_str_option np.1 (s.fmt np.2))) ∧
    (options_exit (options_init env st)).events = st.events ++
      (List.zip fmt_names fmt_defaults).map
        (fun nd => Event.sconf_set_str_option nd.1
          ((env.sconf_get_str_option nd.1).getD nd.2)) := by
  refine ⟨options_init_fmt env st, options_exit_events, ?_⟩
  rw [options_exit_events, (options_init_frame env st).2]
  have h := options_init_fmt env st
  simp only [fmt_vars, fmt_names, fmt_defaults, List.map_cons, List.map_nil,
    List.zip_cons_cons, List.zip_nil_right, List.cons.injEq, and_true] at h ⊢
  obtain ⟨h0, h1, h2, h3, h4, h5, h6, h7⟩ := h
  rw [h0, h1, h2, h3, h4, h5, h6, h7]

/-- C11 (as amended): starting from an empty registry, when `color_names` has
`NR_COLORS` pairwise distinct entries, each at most 54 bytes long, and the
plugin-option enumerator supplies names that are distinct from each other and
from the built-in names, the names `options_init` passes to `option_add` are
pairwise distinct: at every `option_add` call the name is not among the names
registered before it, so the duplicate check never fires during startup. -/
theorem options_init_names_nodup (env : Env) (st : State) (hempty : st.options = [])
    (hlen : env.color_names.length = env.NR_COLORS)
    (hfit : ∀ c ∈ env.color_names, strlen c ≤ 54)
    (hcol : env.color_names.Nodup) (hop : env.op_option_names.Nodup)
    (hdisj : ∀ n ∈ env.op_option_names, n ∉ builtin_names env) :
    ((options_init env st).options.map command_mode_option.name).Nodup ∧
    ∀ before n after,
      (options_init env st).options.map command_mode_option.name = before ++ n :: after →
      n ∉ before := by
  have hnd : ((options_init env st).options.map command_mode_option.name).Nodup := by
    rw [registered_names_eq env st hempty hlen hfit]
    refine List.Nodup.append (builtin_names_nodup env hcol) hop ?_
    intro x hb ho
    exact hdisj x ho hb
  refine ⟨hnd, ?_⟩
  intro before n after heq hmem
  rw [heq] at hnd
  exact (List.nodup_append.1 hnd).2.2 hmem (List.mem_cons_self n after)

theorem options_init_names_nodup_witness :
    ((options_init sample_env sample_state).options.map command_mode_option.name).Nodup :=
  (options_init_names_nodup sample_env sample_state rfl rfl (by decide) (by decide)
    (by decide) (by decide)).1

/-- C11 fails as stated for a color name of more than 54 bytes: in
`long_name_env` the color names are pairwise distinct and the plugin-supplied
name is distinct from the built-in names, yet the ninth and the tenth
`option_add` call carry the same name, the first 63 bytes of both
`color_<c>_bg` and `color_<c>_fg`. -/
theorem options_init_duplicate_counterexample :
    long_name_env.color_names.length = long_name_env.NR_COLORS ∧
    long_name_env.color_names.Nodup ∧
    long_name_env.op_option_names.Nodup ∧
    (∀ n ∈ long_name_env.op_option_names, n ∉ builtin_names long_name_env) ∧
    ((options_init long_name_env sample_state).options.map command_mode_option.name)[8]? =
      some "color_aaaaaaaaaabbbbbbbbbbccccccccccddddddddddeeeeeeeeeefffffff" ∧
    ((options_init long_name_env sample_state).options.map command_mode_option.name)[9]? =
      some "color_aaaaaaaaaabbbbbbbbbbccccccccccddddddddddeeeeeeeeeefffffff" ∧
    ¬ ((options_init long_name_env sample_state).options.map
      command_mode_option.name).Nodup := by
  have hnames := registered_names_cut long_name_env sample_state rfl rfl
  refine ⟨rfl, by decide, by decide, by decide, ?_, ?_, ?_⟩
  · rw [hnames]
    decide
  · rw [hnames]
    decide
  · rw [hnames]
    decide

/-- C12: if both color tables have `NR_COLORS` entries, all in `[-1, 255]`,
then a `set_color` call with any index in `[0, 2*NR_COLORS)` and any text,
accepted or rejected, returns a state whose tables still have all entries in
`[-1, 255]`; hence so does the state after any sequence of such calls. -/
theorem set_color_keeps_range (env : Env) (st : State)
    (htab : st.tables_ok env) (hinv : st.colors_in_range) :
    (∀ (opt : command_mode_option) (i : Int) (value : String),
      opt.data = VoidPtr.int i → 0 ≤ i → i < 2 * (env.NR_COLORS : Int) →
      ∃ st', set_color env opt value st = some st' ∧ st'.colors_in_range) ∧
    (∀ calls : List (command_mode_option × String),
      (∀ call ∈ calls, ∃ i : Int, call.1.data = VoidPtr.int i ∧ 0 ≤ i ∧
        i < 2 * (env.NR_COLORS : Int)) →
      ∃ st', set_color_seq env calls st = some st' ∧ st'.colors_in_range) := by
  constructor
  · intro opt i value hdata hlo hhi
    obtain ⟨st', h1, _, h3⟩ := set_color_step env st opt i value hdata hlo hhi htab hinv
    exact ⟨st', h1, h3⟩
  · intro calls
    induction calls generalizing st with
    | nil =>
      intro _
      exact ⟨st, rfl, hinv⟩
    | cons call rest ih =>
      intro hidx
      obtain ⟨i, hdata, hlo, hhi⟩ := hidx call (List.mem_cons_self call rest)
      obtain ⟨st1, h1, htab1, hinv1⟩ :=
        set_color_step env st call.1 i call.2 hdata hlo hhi htab hinv
      obtain ⟨st2, h2, hinv2⟩ := ih st1 htab1 hinv1
        (fun c hc => hidx c (List.mem_cons_of_mem call hc))
      refine ⟨st2, ?_, hinv2⟩
      simp only [set_color_seq, h1, Option.some_bind, h2]

theorem set_color_keeps_range_witness :
    ∃ st', set_color_seq sample_env
      [(sample_color_opt, "255"), (sample_color_opt, "300"), (sample_color_opt, "-1")]
      sample_state = some st' ∧ st'.colors_in_range :=
  (set_color_keeps_range sample_env sample_state ⟨rfl, rfl⟩ ⟨by decide, by decide⟩).2
    [(sample_color_opt, "255"), (sample_color_opt, "300"), (sample_color_opt, "-1")]
    (fun call hc => ⟨1, by
      simp only [List.mem_cons, List.mem_singleton, List.not_mem_nil, or_false] at hc
      rcases hc with rfl | rfl | rfl <;> rfl, by decide, by decide⟩)

/-- C13: for a color index `i` in `[0, 2*NR_COLORS)` and an accepted value `c`
in `[-1, 255]`, `set_color` writes `c` to background slot `i` when
`i < NR_COLORS` and to foreground slot `i - NR_COLORS` otherwise, leaves every
other slot of that table and the whole other table unchanged, and makes exactly
one call, `ui_curses_update_color` with the slot index within the table;
`get_color` of the same descriptor reads that same slot. -/
theorem set_color_frame (env : Env) (st : State) (opt : command_mode_option)
    (i c : Int) (value : String) (hdata : opt.data = VoidPtr.int i) (htab : st.tables_ok env)
    (hlo : 0 ≤ i) (hhi : i < 2 * (env.NR_COLORS : Int))
    (hparse : env.str_to_int value = (0, c)) (hc1 : -1 ≤ c) (hc2 : c ≤ 255) :
    ∃ st', set_color env opt value st = some st' ∧
      (i < (env.NR_COLORS : Int) →
        st'.bg_colors[i.toNat]? = some c ∧
        (∀ j, j ≠ i.toNat → st'.bg_colors[j]? = st.bg_colors[j]?) ∧
        st'.fg_colors = st.fg_colors ∧
        st'.events = st.events ++ [Event.ui_curses_update_color i] ∧
        (∀ s : State, get_color env opt s = (s.bg_colors[i.toNat]?).map fmt_d)) ∧
      ((env.NR_COLORS : Int) ≤ i →
        st'.fg_colors[(i - (env.NR_COLORS : Int)).toNat]? = some c ∧
        (∀ j, j ≠ (i - (env.NR_COLORS : Int)).toNat →
          st'.fg_colors[j]? = st.fg_colors[j]?) ∧
        st'.bg_colors = st.bg_colors ∧
        st'.events = st.events ++
          [Event.ui_curses_update_color (i - (env.NR_COLORS : Int))] ∧
        (∀ s : State, get_color env opt s =
          (s.fg_colors[(i - (env.NR_COLORS : Int)).toNat]?).map fmt_d)) := by
  have hset := set_color_accept_eq env st opt i value hdata htab hlo hhi
    (by rw [hparse]) (by rw [hparse]; exact hc1) (by rw [hparse]; exact hc2)
  rw [hparse] at hset
  refine ⟨_, hset, ?_, ?_⟩
  · intro hi
    have hlt : i.toNat < st.bg_colors.length := by
      have := htab.1
      omega
    rw [if_pos hi]
    refine ⟨?_, ?_, rfl, rfl, ?_⟩
    · simp only [State.emit]
      exact List.getElem?_set_self hlt
    · intro j hj
      simp only [State.emit]
      exact List.getElem?_set_ne (Ne.symm hj)
    · intro s
      rw [get_color_slot env s opt i hdata hlo hhi, if_pos hi]
  · intro hi
    have hlt : (i - (env.NR_COLORS : Int)).toNat < st.fg_colors.length := by
      have := htab.2
      omega
    rw [if_neg (by omega)]
    refine ⟨?_, ?_, rfl, rfl, ?_⟩
    · simp only [State.emit]
      exact List.getElem?_set_self hlt
    · intro j hj
      simp only [State.emit]
      exact List.getElem?_set_ne (Ne.symm hj)
    · intro s
      rw [get_color_slot env s opt i hdata hlo hhi, if_neg (by omega)]

theorem set_color_frame_witness :
    (set_color sample_env sample_color_opt "9" sample_state).map State.bg_colors
      = some [-1, 9] ∧
    (set_color sample_env sample_color_opt "9" sample_state).map State.fg_colors
      = some [7, -1] ∧
    (set_color sample_env sample_color_opt "9" sample_state).map State.events
      = some [Event.ui_curses_update_color 1] ∧
    ∃ st', set_color sample_env sample_color_opt "9" sample_state = some st' ∧
      st'.bg_colors[1]? = some 9 :=
  ⟨by rfl, by rfl, by rfl,
    (set_color_frame sample_env sample_state sample_color_opt 1 9 "9" rfl ⟨rfl, rfl⟩
      (by decide) (by decide) (by rfl) (by decide) (by decide)).imp
      (fun _ h => ⟨h.1, (h.2.1 (by decide)).1⟩)⟩

/-- C14 (as amended): for a non-negative stored chunk count whose product with
a non-negative `CHUNK_SIZE` fits `int` (is below `2^31`), `get_buffer_seconds`
returns the decimal text of the floor of
`chunks * CHUNK_SIZE / (44100 * 16 / 8 * 2)`. -/
theorem get_buffer_seconds_floor (env : Env) (st : State)
    (h0 : 0 ≤ st.player_buffer_size) (hcs : 0 ≤ env.CHUNK_SIZE)
    (hfit : st.player_buffer_size * env.CHUNK_SIZE < 2 ^ 31) :
    get_buffer_seconds env st =
      some (fmt_d (Int.fdiv (st.player_buffer_size * env.CHUNK_SIZE)
        (44100 * 16 / 8 * 2))) := by
  have hprod : 0 ≤ st.player_buffer_size * env.CHUNK_SIZE := mul_nonneg h0 hcs
  have hd : (44100 * 16 / 8 * 2 : Int) = 176400 := by decide
  unfold get_buffer_seconds
  rw [seconds_divisor, hd, wrap_eq_self INT_BITS _ (by decide)
    (by simp only [INT_BITS]; omega) (by simpa [INT_BITS] using hfit)]
  unfold cdiv
  rw [Int.tdiv_eq_ediv hprod (by decide), Int.fdiv_eq_ediv _ (by decide)]

theorem get_buffer_seconds_floor_witness :
    get_buffer_seconds sample_env sample_state =
      some (fmt_d (Int.fdiv (sample_state.player_buffer_size * sample_env.CHUNK_SIZE)
        (44100 * 16 / 8 * 2))) :=
  get_buffer_seconds_floor sample_env sample_state (by decide) (by decide) (by decide)

/-- C14 fails as stated once `chunks * CHUNK_SIZE` no longer fits `int`: with
60 KiB chunks, setting "12175" seconds leaves 34955 chunks in a player that
stores what it is handed; the product 2147635200 wraps to -2147332096 and the
text read back is "-12173", while the floor on the integers is 12174. -/
theorem get_buffer_seconds_overflow_counterexample :
    (set_buffer_seconds sample_env "12175" sample_state).map State.player_buffer_size
      = some 34955 ∧
    get_buffer_seconds sample_env { sample_state with player_buffer_size := 34955 }
      = some "-12173" ∧
    (set_buffer_seconds sample_env "12175" sample_state).bind (get_buffer_seconds sample_env)
      = some "-12173" ∧
    Int.fdiv (34955 * sample_env.CHUNK_SIZE) (44100 * 16 / 8 * 2) = 12174 ∧
    fmt_d 12174 ≠ "-12173" := by
  refine ⟨by rfl, by rfl, by rfl, by decide, by decide⟩

/-- C15: for every descriptor `options_init` adds to an empty registry, no
`BUG_ON` in its accessors fires: `get` and `set` return in every state whose
color tables have `NR_COLORS` entries, whatever the text.  Each color
descriptor is the `color_<c>_bg` descriptor with context `k` or the
`color_<c>_fg` descriptor with context `k + NR_COLORS` of a color
`k < NR_COLORS`, so its context index lies in `[0, 2*NR_COLORS)`; each
plugin-option descriptor carries the null context. -/
theorem registered_assertions_pass (env : Env) (st0 : State) (opt : command_mode_option)
    (hempty : st0.options = []) (hreg : opt ∈ (options_init env st0).options) :
    (∀ (st : State) (value : String), st.tables_ok env →
      (∃ r, option_get env opt st = some r) ∧
      (∃ st', option_set env opt value st = some st')) ∧
    (opt.set = SetFn.set_color ∨ opt.get = GetFn.get_color →
      (∃ k : Nat, k < env.NR_COLORS ∧
        opt ∈ color_option_pair env k (env.color_names.getD k "")) ∧
      ∃ i : Int, opt.data = VoidPtr.int i ∧ 0 ≤ i ∧ i < 2 * (env.NR_COLORS : Int)) ∧
    (opt.set = SetFn.set_op_option → opt.data = NULL) := by
  refine ⟨?_, ?_, ?_⟩
  · intro st value htab
    rcases registered_cases env st0 opt hempty hreg with
      ⟨hg, hs, p, hd⟩ | ⟨hg, hs, i, hd, hlo, hhi⟩ | ⟨hg, hs⟩ | ⟨hg, hs⟩ | ⟨hg, hs⟩ |
      ⟨hg, hs⟩ | ⟨hg, hs, hd⟩
    · simp only [option_set, option_get, hg, hs, get_format, set_format, hd]
      refine ⟨⟨_, rfl⟩, ?_⟩
      by_cases hv : env.format_valid value = true <;> simp [hv]
    · simp only [option_set, option_get, hg, hs]
      exact ⟨get_color_returns env st opt i hd hlo hhi htab,
        set_color_returns env st opt i value hd hlo hhi htab⟩
    · simp only [option_set, option_get, hg, hs, get_output_plugin, set_output_plugin]
      refine ⟨?_, ⟨_, rfl⟩⟩
      cases st.player_op <;> exact ⟨_, rfl⟩
    · simp only [option_set, option_get, hg, hs, get_buffer_seconds, set_buffer_seconds]
      refine ⟨⟨_, rfl⟩, ?_⟩
      by_cases hv : (env.str_to_int value).1 = -1 <;> simp [hv]
    · simp only [option_set, option_get, hg, hs, get_status_display_program,
        set_status_display_program]
      refine ⟨?_, ?_⟩
      · cases st.status_display_program <;> exact ⟨_, rfl⟩
      · by_cases hv : value = "" <;> simp [hv]
    · simp only [option_set, option_get, hg, hs, get_sort, set_sort]
      exact ⟨⟨_, rfl⟩, ⟨_, rfl⟩⟩
    · simp only [option_set, option_get, hg, hs, get_op_option, set_op_option, hd]
      refine ⟨⟨_, rfl⟩, ?_⟩
      simp
  · intro hcolor
    refine ⟨registered_color_cases env st0 opt hempty hreg hcolor, ?_⟩
    rcases registered_cases env st0 opt hempty hreg with
      ⟨hg, hs, _⟩ | ⟨_, _, i, hd, hlo, hhi⟩ | ⟨hg, hs⟩ | ⟨hg, hs⟩ | ⟨hg, hs⟩ |
      ⟨hg, hs⟩ | ⟨hg, hs, _⟩
    · rcases hcolor with h | h <;> simp [hg, hs] at h
    · exact ⟨i, hd, hlo, hhi⟩
    · rcases hcolor with h | h <;> simp [hg, hs] at h
    · rcases hcolor with h | h <;> simp [hg, hs] at h
    · rcases hcolor with h | h <;> simp [hg, hs] at h
    · rcases hcolor with h | h <;> simp [hg, hs] at h
    · rcases hcolor with h | h <;> simp [hg, hs] at h
  · intro hop
    rcases registered_cases env st0 opt hempty hreg with
      ⟨_, hs, _⟩ | ⟨_, hs, _⟩ | ⟨_, hs⟩ | ⟨_, hs⟩ | ⟨_, hs⟩ | ⟨_, hs⟩ | ⟨_, _, hd⟩
    · simp [hs] at hop
    · simp [hs] at hop
    · simp [hs] at hop
    · simp [hs] at hop
    · simp [hs] at hop
    · simp [hs] at hop
    · exact hd

theorem registered_assertions_pass_witness :
    (∃ r, option_get sample_env sample_color_opt sample_state = some r) ∧
    (∃ st', option_set sample_env sample_color_opt "300" sample_state = some st') :=
  (registered_assertions_pass sample_env sample_state sample_color_opt rfl (by
    rw [options_init_options]
    refine List.mem_append_left _ (List.mem_append_left _ (List.mem_append_right _ ?_))
    refine List.mem_flatMap.2 ⟨1, by decide, ?_⟩
    have hname : snprintf 64 "color_title_bg" = "color_title_bg" :=
      snprintf_fits _ (by decide)
    simp [color_option_pair, sample_color_opt, sample_env, hname])).1
    sample_state "300" ⟨rfl, rfl⟩

end Cmus
